import Mathlib

/-!
Verification development for the `edge` safe reinforcement-learning repository.

This file gives a shallow embedding, in Lean 4, of the safety-measure core
(`edge/model/safety_models/safety_measure.py`) and of the discrete product
space (`edge/space/space.py`), and proves theorems about the embedded
operations.

Modelling conventions:
* numpy float arrays are modelled as `List ℚ`; reshaping only changes the
  shape bookkeeping of an array, never its (row-major) element sequence, so
  flattened lists carry all the information the verified claims need;
* the external regressor (`GPModel.query` / `MaternGP`), the external
  state-action indexing, `scipy.stats.norm.cdf` and `np.sqrt` are fields of
  the `SafetyMeasure` structure: the source treats them as black boxes and
  so do we;
* fallible Python code returns `Except PyError _`, with `PyError` separating
  a `ValueError` (with its message) from a `NameError` (an undefined name
  hit while building an error message);
* observable effects of `level_set` (number of regressor inference calls,
  warnings emitted via `warnings.warn`) are returned explicitly in the
  `LSOutcome` record, together with the Python return value encoded as a
  `PyVal`.
-/

set_option allowUnsafeReducibility true

attribute [local semireducible] Rat.mul Rat.add Rat.sub Rat.div Rat.inv Rat.normalize Rat.blt

/-- Python errors relevant to this development: `ValueError msg`, and
`NameError name` raised when evaluating an expression that references the
undefined `name`. -/
inductive PyError where
  | valueError (msg : String)
  | nameError (missing : String)
deriving DecidableEq

/-- Argument that is either a numpy scalar or a 1-d array, as accepted by
`np.atleast_1d`. -/
inductive NPVal where
  | scalar (x : ℚ)
  | arr (xs : List ℚ)
deriving DecidableEq

/-- Embedding of `np.atleast_1d`: a scalar becomes a one-element array, an
array (already at least one-dimensional) is returned unchanged. -/
def np_atleast_1d : NPVal → List ℚ
  | NPVal.scalar x => [x]
  | NPVal.arr xs => xs

/-- Python values returned by `level_set`: boolean arrays, float arrays,
lists of values, tuples of values, or `None`. -/
inductive PyVal where
  | boolArr (a : List Bool)
  | qArr (a : List ℚ)
  | listOf (l : List PyVal)
  | tuple (l : List PyVal)
  | pynone

/-- Components of a returned Python value: the elements of a tuple, or the
one-element list holding a non-tuple value. -/
def PyVal.tupleComponents : PyVal → List PyVal
  | PyVal.tuple l => l
  | v => [v]

/-- Whether a Python value is a tuple. -/
def PyVal.isTuple : PyVal → Bool
  | PyVal.tuple _ => true
  | _ => false

/-- Whether a Python value is a list. -/
def PyVal.isListOf : PyVal → Bool
  | PyVal.listOf _ => true
  | _ => false

/-- A threshold argument of `level_set`: a single value, or a list of
values (Python accepts both `list` and `tuple`; both are `Thresh.list`). -/
inductive Thresh where
  | scalar (x : ℚ)
  | list (l : List ℚ)

/-- The threshold list used internally by `level_set`: a non-list threshold
is wrapped into a one-element list, a list is kept as is (source lines
115-122). -/
def Thresh.toList : Thresh → List ℚ
  | Thresh.scalar x => [x]
  | Thresh.list l => l

/-- The `state` argument of `level_set`: `None` (the whole state space), a
slice, or an array of states (source lines 124-135 turn each of these into a
query index; that translation is delegated to the external state-action
indexing, modelled by the `toIndex` field below). -/
inductive StateArg (St : Type) where
  | whole
  | slice
  | states (l : List St)

/-- A training row appended to the regressor by `update`
(`gp.append_data(stateaction, update_value, forgettable=..., make_forget=...,
unskippable=...)`). -/
structure TrainingRow (SA : Type) where
  input : SA
  target : List ℚ
  forgettable : List Bool
  make_forget : List Bool
  unskippable : List Bool

/-- Shallow embedding of a `SafetyMeasure` instance. `St`, `A`, `SA`, `Ix`
are the (opaque) types of a single state, a single action, a state-action
vector, and a regressor query index. The external collaborators of the
class are fields:
* `toIndex` — the index built from the `state` argument (source lines
  124-135, delegated to the external indexing utilities);
* `query` — the external regressor query, returning the flattened
  `(mean, covariance, covariance matrix)` arrays for an index; the
  `return_covar_matrix` flag of the Python call only selects whether the
  third component is part of the returned tuple;
* `queryPoint` — the same regressor queried at a single state-action pair,
  as done by `is_in_level_set`;
* `stateactionOf` — `env.stateaction_space[state, action]`;
* `actionSize` — the number of cells of `env.action_space.shape`;
* `cdf`, `sqrt` — `scipy.stats.norm.cdf` and `np.sqrt` (on nonnegative
  input), both external numeric routines;
* `npWarnings` — the `RuntimeWarning` messages numpy emits when
  `np.sqrt` / the division hits an invalid (nonpositive-covariance) value,
  as captured by `warnings.catch_warnings(record=True)`. -/
structure SafetyMeasure (St A SA Ix : Type) where
  gamma_measure : ℚ
  toIndex : StateArg St → Ix
  query : Ix → List ℚ × List ℚ × List ℚ
  queryPoint : St → A → ℚ × ℚ
  stateactionOf : St → A → SA
  actionSize : ℕ
  cdf : ℚ → ℚ
  sqrt : ℚ → ℚ
  npWarnings : List String

/-- Observable outcome of a `level_set` call: the Python return value, the
internal `level_value_list` and `level_set_list` (before the singleton
unwrapping), the number of regressor inference calls performed, and the
messages passed to `warnings.warn`. -/
structure LSOutcome where
  ret : PyVal
  levelValues : List (List ℚ)
  levelSets : List (List Bool)
  queryCalls : ℕ
  emittedWarnings : List String

variable {St A SA Ix : Type}

/-- Embedding of `SafetyMeasure.level_set` (source lines 87-219).
The reshapes of lines 148-154 only reassign shapes, so the flattened arrays
are used directly. A warning is captured during the CDF computation exactly
when the covariance slice has a nonpositive entry (`np.sqrt` of a negative
emits an invalid-value `RuntimeWarning`; a zero covariance makes the
division emit one); in that case the fallback recomputation with
`np.abs(covar_slice)` is used (lines 186-190) and the consolidated warning
message is built (lines 178-185) by concatenating each captured message
followed by a newline and then dropping the last two characters. -/
def SafetyMeasure.level_set (m : SafetyMeasure St A SA Ix) (state : StateArg St)
    (lambda_threshold gamma_threshold : Thresh)
    (return_proba return_covar return_measure return_covar_matrix : Bool) :
    LSOutcome :=
  let lambda_threshold_list := lambda_threshold.toList
  let gamma_threshold_list := gamma_threshold.toList
  let index := m.toIndex state
  let q := m.query index
  let measure_slice := q.1
  let covar_slice := q.2.1
  let covar_matrix : Option (List ℚ) :=
    if return_covar_matrix then some q.2.2 else none
  let w : List String :=
    if covar_slice.any (fun c => decide (c ≤ 0)) then m.npWarnings else []
  let level_value_list : List (List ℚ) :=
    if w.length > 0 then
      lambda_threshold_list.map (fun lt =>
        (measure_slice.zip covar_slice).map (fun p =>
          m.cdf ((p.1 - lt) / m.sqrt |p.2|)))
    else
      lambda_threshold_list.map (fun lt =>
        (measure_slice.zip covar_slice).map (fun p =>
          m.cdf ((p.1 - lt) / m.sqrt p.2)))
  let warning_message : Option String :=
    if w.length > 0 then
      some ("Warning encountered in cumulative density function computation. \nThis may be caused by an ill-conditioned kernel matrix causing a negative covariance.\nOriginal warning: "
        ++ (String.join (w.map (fun s => s ++ "\n"))).dropRight 2)
    else none
  let level_set_list : List (List Bool) :=
    (level_value_list.zip gamma_threshold_list).map (fun p =>
      p.1.map (fun v => decide (v > p.2)))
  let ls_val : PyVal :=
    if level_set_list.length = 1 then PyVal.boolArr level_set_list.headI
    else PyVal.listOf (level_set_list.map PyVal.boolArr)
  let lv_val : PyVal :=
    if level_set_list.length = 1 then PyVal.qArr level_value_list.headI
    else PyVal.listOf (level_value_list.map PyVal.qArr)
  let someFlag := return_proba || return_covar || return_measure ||
    return_covar_matrix
  let base : List PyVal :=
    [ls_val]
    ++ (if return_proba then [lv_val] else [])
    ++ (if return_covar then [PyVal.qArr covar_slice] else [])
    ++ (if return_measure then [PyVal.qArr measure_slice] else [])
    ++ (if return_covar_matrix then
          [match covar_matrix with
            | some cm => PyVal.qArr cm
            | none => PyVal.pynone]
        else [])
  let ret := if someFlag then PyVal.tuple base else ls_val
  ⟨ret, level_value_list, level_set_list, 1, warning_message.toList⟩

/-- Embedding of `SafetyMeasure.measure` (source lines 62-80): computes the
level set at the given thresholds (with `gamma_measure` as the default
gamma), reshapes it to `(-1,) + action_space.shape` and averages the boolean
indicator over the action cells, i.e. over consecutive chunks of
`actionSize` entries of the flattened level set. -/
def SafetyMeasure.measure (m : SafetyMeasure St A SA Ix) (state : StateArg St)
    (lambda_threshold : ℚ := 0) (gamma_threshold : Option ℚ := none) :
    List ℚ :=
  let gamma := gamma_threshold.getD m.gamma_measure
  let o := m.level_set state (Thresh.scalar lambda_threshold)
    (Thresh.scalar gamma) false false false false
  let ls := o.levelSets.headI
  (List.toChunks m.actionSize ls).map (fun chunk =>
    ((chunk.countP id : ℕ) : ℚ) / (m.actionSize : ℚ))

/-- Embedding of `SafetyMeasure.update` (source lines 36-60): computes the
target value (bootstrap from `measure` at the new state, the override
coerced by `np.atleast_1d`, or `[0.]` on failure), appends one training row
tagged `forgettable=[not failed]`, `make_forget=[not failed]`,
`unskippable=[failed]`, and returns the value written. The returned pair is
(appended row, returned value). -/
def SafetyMeasure.update (m : SafetyMeasure St A SA Ix) (state : St)
    (action : A) (new_state : St) (reward : ℚ) (failed : Bool) (done : Bool)
    (measure : Option NPVal := none) : TrainingRow SA × List ℚ :=
  let update_value : List ℚ :=
    match failed, measure with
    | false, none =>
        m.measure (StateArg.states [new_state]) 0 (some m.gamma_measure)
    | false, some v => np_atleast_1d v
    | true, _ => [0]
  let stateaction := m.stateactionOf state action
  (⟨stateaction, update_value, [!failed], [!failed], [failed]⟩, update_value)

/-- Embedding of `SafetyMeasure.is_in_level_set` (source lines 82-85):
queries the regressor at the single state-action pair and compares
`norm.cdf((measure - lambda_threshold) / np.sqrt(covar))` with
`gamma_threshold`. -/
def SafetyMeasure.is_in_level_set (m : SafetyMeasure St A SA Ix) (state : St)
    (action : A) (lambda_threshold gamma_threshold : ℚ) : Bool :=
  let mc := m.queryPoint state action
  decide (m.cdf ((mc.1 - lambda_threshold) / m.sqrt mc.2) > gamma_threshold)

/-- A discrete sub-space as used by `DiscreteProductSpace`
(`edge/space/space.py`): membership test, value-to-index conversion and
index-to-value conversion. The concrete sub-space classes are external to
the verified file, so the three operations are fields. -/
structure DiscreteSubSpace (α : Type) where
  mem : α → Bool
  indexof : α → ℕ
  getitem : ℕ → α

/-- Embedding of `DiscreteProductSpace` (source lines 43-92): an ordered
product of sub-spaces. -/
structure DiscreteProductSpace (α : Type) where
  sets : List (DiscreteSubSpace α)

/-- Embedding of `DiscreteProductSpace.contains` (source lines 48-58): a
size mismatch raises a `ValueError` with a descriptive message, otherwise
every coordinate is tested in its sub-space. -/
def DiscreteProductSpace.contains {α : Type} (sp : DiscreteProductSpace α)
    (coordinates : List α) : Except PyError Bool :=
  if coordinates.length ≠ sp.sets.length then
    Except.error (PyError.valueError
      ("Size mismatch: expected " ++ toString sp.sets.length ++
       " coordinates, received " ++ toString coordinates.length))
  else
    Except.ok ((coordinates.zip sp.sets).all (fun p => p.2.mem p.1))

/-- Embedding of `DiscreteProductSpace.__getitem__` (source lines 65-75): a
size mismatch raises a `ValueError` with a descriptive message, otherwise
every index is converted in its sub-space. -/
def DiscreteProductSpace.getitem {α : Type} (sp : DiscreteProductSpace α)
    (index : List ℕ) : Except PyError (List α) :=
  if index.length ≠ sp.sets.length then
    Except.error (PyError.valueError
      ("Size mismatch: expected " ++ toString sp.sets.length ++
       " coordinates, received " ++ toString index.length))
  else
    Except.ok ((index.zip sp.sets).map (fun p => p.2.getitem p.1))

/-- Embedding of `DiscreteProductSpace.indexof` (source lines 77-87). On a
size mismatch, the raised `ValueError`'s f-string message references the
name `coordinates`, which is undefined in that scope (the parameter is named
`x`), so evaluating the message raises `NameError: name 'coordinates' is not
defined` instead; the matched-size path converts each coordinate in its
sub-space. -/
def DiscreteProductSpace.indexof {α : Type} (sp : DiscreteProductSpace α)
    (x : List α) : Except PyError (List ℕ) :=
  if x.length ≠ sp.sets.length then
    Except.error (PyError.nameError "coordinates")
  else
    Except.ok ((x.zip sp.sets).map (fun p => p.2.indexof p.1))

/-- Modelled from the spec: `GPModel.SAVE_NAME`, the conventional file name
of the persisted state-dict holding `gamma_measure` (the repository file
defining `GPModel` is not under `src/`; the spec only says the persisted
layout holds "a small JSON/structured file" with the state dict, so the
concrete name is a placeholder — no verified statement depends on its
value). -/
def GPModel.SAVE_NAME : String := "model_save"

/-- The part of a restored `MaternSafety` model the persistence claims are
about. The regressor itself is restored by the external `MaternGP.load`. -/
structure MaternSafetyModel where
  gamma_measure : ℚ
deriving DecidableEq

/-- Embedding of `MaternSafety.load` (source lines 237-270), restricted to
the `gamma_measure` logic: the external `MaternGP.load` (assumed to succeed)
restores the regressor, then, when `gamma_measure` is `None`, the persisted
state dict is read from `load_folder / GPModel.SAVE_NAME`; a missing file
(`FileNotFoundError`) is turned into a `ValueError` naming that path. The
file system and the external `json` parsing are modelled by
`stateDictFiles`, mapping a path to the persisted `gamma_measure` value of
the state-dict file stored there, if any. -/
def MaternSafety.load {Env XS YS : Type} (stateDictFiles : String → Option ℚ)
    (load_folder : String) (env : Env) (gamma_measure : Option ℚ)
    (x_seed : Option XS) (y_seed : Option YS) :
    Except PyError MaternSafetyModel :=
  let model_save_path := load_folder ++ "/" ++ GPModel.SAVE_NAME
  match gamma_measure with
  | some g => Except.ok ⟨g⟩
  | none =>
    match stateDictFiles model_save_path with
    | some g => Except.ok ⟨g⟩
    | none =>
        Except.error (PyError.valueError
          ("Could not find file " ++ model_save_path ++
           ". Specify gamma_measure instead to load this model"))

/-- A concrete safety-measure instance on trivial carrier types, used by
the closed witness statements: two states times two actions, measure slice
`[1, 2]`, covariance slice `[3, 4]` (positive, so no numerical warning),
and identity stand-ins for the external `norm.cdf` and `np.sqrt`. -/
def mConcrete : SafetyMeasure Unit Unit Unit Unit where
  gamma_measure := 1/2
  toIndex _ := ()
  query _ := ([1, 2], [3, 4], [5, 6])
  queryPoint _ _ := (1, 1)
  stateactionOf _ _ := ()
  actionSize := 2
  cdf := id
  sqrt := id
  npWarnings := ["invalid value encountered in sqrt"]

/-- A concrete safety-measure instance whose regressor reports a negative
covariance, so that the CDF computation emits a numpy warning. -/
def mWarn : SafetyMeasure Unit Unit Unit Unit where
  gamma_measure := 1/2
  toIndex _ := ()
  query _ := ([2], [-1], [7])
  queryPoint _ _ := (2, -1)
  stateactionOf _ _ := ()
  actionSize := 1
  cdf := id
  sqrt := id
  npWarnings := ["invalid value encountered in sqrt"]

/-- A trivial discrete sub-space over `ℕ` (identity indexing, universal
membership), used to instantiate `DiscreteProductSpace` concretely. -/
def subN : DiscreteSubSpace ℕ where
  mem _ := true
  indexof x := x
  getitem i := i

/-- A concrete two-factor discrete product space over `ℕ`. -/
def sp2 : DiscreteProductSpace ℕ := ⟨[subN, subN]⟩

/-- A concrete state-dict file system holding one persisted state dict with
`gamma_measure = 3/10` at `folder/model_save`. -/
def filesC7 : String → Option ℚ := fun p =>
  if p = "folder/" ++ GPModel.SAVE_NAME then some (3/10) else none

/-- C1: on a failed transition, `update` appends a row whose target is
exactly `[0.]`, with retention flags `forgettable=[False]`,
`make_forget=[False]`, `unskippable=[True]`, and returns `[0.]`, regardless
of the override `measure` argument. -/
theorem edge_C1_update_failed (St A SA Ix : Type)
    (m : SafetyMeasure St A SA Ix) (state : St) (action : A) (new_state : St)
    (reward : ℚ) (done : Bool) (measure : Option NPVal) :
    m.update state action new_state reward true done measure =
      ({ input := m.stateactionOf state action, target := [0],
         forgettable := [false], make_forget := [false],
         unskippable := [true] }, [0]) := by
  cases measure <;> rfl

/-- C2: on a non-failed transition, `update` bootstraps its target from
`measure(new_state, lambda_threshold=0, gamma_threshold=gamma_measure)` when
no override is given, and uses `np.atleast_1d` of the override otherwise; in
both cases the row is tagged `forgettable=[True]`, `make_forget=[True]`,
`unskippable=[False]` and the value written is returned. -/
theorem edge_C2_update_not_failed (St A SA Ix : Type)
    (m : SafetyMeasure St A SA Ix) (state : St) (action : A) (new_state : St)
    (reward : ℚ) (done : Bool) :
    (m.update state action new_state reward false done none =
      ({ input := m.stateactionOf state action,
         target := m.measure (StateArg.states [new_state]) 0
           (some m.gamma_measure),
         forgettable := [true], make_forget := [true],
         unskippable := [false] },
        m.measure (StateArg.states [new_state]) 0 (some m.gamma_measure)))
    ∧ ∀ ov : NPVal,
      m.update state action new_state reward false done (some ov) =
        ({ input := m.stateactionOf state action, target := np_atleast_1d ov,
           forgettable := [true], make_forget := [true],
           unskippable := [false] }, np_atleast_1d ov) :=
  ⟨rfl, fun _ => rfl⟩

/-- C10: `update` is insensitive to the `reward` and `done` arguments: two
calls agreeing on state, action, new state, failure flag and override
produce the same appended row and the same returned value for arbitrary
rewards and done flags. -/
theorem edge_C10_update_ignores_reward_done (St A SA Ix : Type)
    (m : SafetyMeasure St A SA Ix) (state : St) (action : A) (new_state : St)
    (reward reward' : ℚ) (failed : Bool) (done done' : Bool)
    (measure : Option NPVal) :
    m.update state action new_state reward failed done measure =
      m.update state action new_state reward' failed done' measure := rfl

/-- C9: `DiscreteProductSpace.indexof` converts each coordinate in its
sub-space when the input length matches the number of sub-spaces, but on a
length mismatch the raise statement's f-string references the undefined
name `coordinates`, so the call fails with a `NameError` instead of the
descriptive size-mismatch `ValueError` that `contains` and `__getitem__`
produce. Evaluated at the failing input `[5]` against a two-factor space. -/
theorem edge_C9_indexof_mismatch_namerror :
    sp2.indexof [5] = Except.error (PyError.nameError "coordinates")
    ∧ sp2.contains [5] =
        Except.error (PyError.valueError
          "Size mismatch: expected 2 coordinates, received 1")
    ∧ sp2.getitem [3] =
        Except.error (PyError.valueError
          "Size mismatch: expected 2 coordinates, received 1")
    ∧ sp2.indexof [5, 7] = Except.ok [5, 7] := by
  exact ⟨rfl, rfl, rfl, rfl⟩

/-- C7: `MaternSafety.load` with `gamma_measure=None` raises, when the
persisted state-dict file is absent, a `ValueError` whose message names the
missing path `load_folder / SAVE_NAME` (no default is substituted), and,
when the file is present, restores a model whose `gamma_measure` is the
persisted value. -/
theorem edge_C7_load_gamma_measure (Env XS YS : Type)
    (files : String → Option ℚ) (folder : String) (env : Env)
    (x_seed : Option XS) (y_seed : Option YS) :
    (files (folder ++ "/" ++ GPModel.SAVE_NAME) = none →
      MaternSafety.load files folder env none x_seed y_seed =
        Except.error (PyError.valueError
          ("Could not find file " ++ (folder ++ "/" ++ GPModel.SAVE_NAME) ++
           ". Specify gamma_measure instead to load this model")))
    ∧ ∀ g : ℚ, files (folder ++ "/" ++ GPModel.SAVE_NAME) = some g →
        MaternSafety.load files folder env none x_seed y_seed =
          Except.ok ⟨g⟩ := by
  refine ⟨fun h => ?_, fun g h => ?_⟩ <;>
    simp [MaternSafety.load, h]

/-- Witness for C7: evaluates `load` on a file system with no state-dict
file (the error names the missing path) and on one holding
`gamma_measure = 3/10` (the restored value is `3/10`). -/
theorem edge_C7_load_gamma_measure_witness :
    ((fun _ : String => (none : Option ℚ))
        ("folder" ++ "/" ++ GPModel.SAVE_NAME) = none)
    ∧ MaternSafety.load (fun _ => none) "folder" () none
        (none : Option Unit) (none : Option Unit) =
        Except.error (PyError.valueError
          ("Could not find file " ++ ("folder" ++ "/" ++ GPModel.SAVE_NAME) ++
           ". Specify gamma_measure instead to load this model"))
    ∧ filesC7 ("folder" ++ "/" ++ GPModel.SAVE_NAME) = some (3/10)
    ∧ MaternSafety.load filesC7 "folder" () none
        (none : Option Unit) (none : Option Unit) = Except.ok ⟨3/10⟩ :=
  ⟨rfl,
   (edge_C7_load_gamma_measure Unit Unit Unit (fun _ => none) "folder" ()
      none none).1 rfl,
   rfl,
   (edge_C7_load_gamma_measure Unit Unit Unit filesC7 "folder" ()
      none none).2 (3/10) rfl⟩

/-- Helper: the unwrapped level-set value built by `level_set` is never a
tuple (it is a bare boolean array or a list of them). -/
theorem isTuple_unwrap (cnd : Prop) [Decidable cnd] (a : List Bool)
    (l : List PyVal) :
    (if cnd then PyVal.boolArr a else PyVal.listOf l).isTuple = false := by
  split <;> rfl

/-- Helper: the components of a value that is a bare boolean array or a
list of boolean arrays form the one-element list holding it. -/
theorem tupleComponents_unwrap (cnd : Prop) [Decidable cnd] (a : List Bool)
    (l : List PyVal) :
    (if cnd then PyVal.boolArr a else PyVal.listOf l).tupleComponents =
      [if cnd then PyVal.boolArr a else PyVal.listOf l] := by
  split <;> rfl

/-- Helper: the length of a conditional choice between two lists of the
same length. -/
theorem length_ite_list {α : Type} (C : Prop) [Decidable C] (l1 l2 : List α)
    (n : ℕ) (h1 : l1.length = n) (h2 : l2.length = n) :
    (if C then l1 else l2).length = n := by
  split <;> assumption

/-- Helper: `level_set` computes one probability array per lambda
threshold, whatever the branch taken. -/
theorem level_set_levelValues_length (m : SafetyMeasure St A SA Ix)
    (state : StateArg St) (lt gt : Thresh) (p c ms cm : Bool) :
    (m.level_set state lt gt p c ms cm).levelValues.length =
      lt.toList.length := by
  unfold SafetyMeasure.level_set
  dsimp only
  exact length_ite_list _ _ _ _ (by simp) (by simp)

/-- Helper: the level sets computed by `level_set` compare each computed
probability array with the matching gamma threshold. -/
theorem level_set_levelSets_eq (m : SafetyMeasure St A SA Ix)
    (state : StateArg St) (lt gt : Thresh) (p c ms cm : Bool) :
    (m.level_set state lt gt p c ms cm).levelSets =
      ((m.level_set state lt gt p c ms cm).levelValues.zip gt.toList).map
        (fun pr => pr.1.map (fun v => decide (v > pr.2))) := rfl

/-- Helper: the number of level sets computed by `level_set` is the length
of the zip of the lambda and gamma threshold lists. -/
theorem level_set_levelSets_length (m : SafetyMeasure St A SA Ix)
    (state : StateArg St) (lt gt : Thresh) (p c ms cm : Bool) :
    (m.level_set state lt gt p c ms cm).levelSets.length =
      min lt.toList.length gt.toList.length := by
  rw [level_set_levelSets_eq]
  simp [level_set_levelValues_length]

/-- Helper: the components of the value returned by `level_set` are the
(possibly unwrapped) level set, then, per flag in fixed order, the
(possibly unwrapped) probabilities, the covariance slice, the measure
slice, and the covariance matrix. -/
theorem level_set_ret_components (m : SafetyMeasure St A SA Ix)
    (state : StateArg St) (lt gt : Thresh) (p c ms cm : Bool) :
    (m.level_set state lt gt p c ms cm).ret.tupleComponents =
      [if (m.level_set state lt gt p c ms cm).levelSets.length = 1
        then PyVal.boolArr (m.level_set state lt gt p c ms cm).levelSets.headI
        else PyVal.listOf
          ((m.level_set state lt gt p c ms cm).levelSets.map PyVal.boolArr)]
      ++ (if p then
          [if (m.level_set state lt gt p c ms cm).levelSets.length = 1
            then PyVal.qArr
              (m.level_set state lt gt p c ms cm).levelValues.headI
            else PyVal.listOf
              ((m.level_set state lt gt p c ms cm).levelValues.map
                PyVal.qArr)]
          else [])
      ++ (if c then [PyVal.qArr (m.query (m.toIndex state)).2.1] else [])
      ++ (if ms then [PyVal.qArr (m.query (m.toIndex state)).1] else [])
      ++ (if cm then [PyVal.qArr (m.query (m.toIndex state)).2.2] else []) := by
  cases p <;> cases c <;> cases ms <;> cases cm <;>
    first
      | rfl
      | exact tupleComponents_unwrap _ _ _

/-- C5: `level_set` returns the bare (possibly list-valued) level set when
none of the four return flags is set, and otherwise a tuple whose first
element is exactly that bare level set, followed by one component for each
flag that is set, in the fixed order probability, covariance, measure,
covariance matrix. -/
theorem edge_C5_return_tuple_policy (St A SA Ix : Type)
    (m : SafetyMeasure St A SA Ix) (state : StateArg St) (lt gt : Thresh)
    (p c ms cm : Bool) :
    ((p || c || ms || cm) = false →
      (m.level_set state lt gt p c ms cm).ret.isTuple = false ∧
      (m.level_set state lt gt p c ms cm).ret =
        (m.level_set state lt gt false false false false).ret)
    ∧ ((p || c || ms || cm) = true →
      ∃ pr cv me cmv : PyVal,
        (m.level_set state lt gt p c ms cm).ret =
          PyVal.tuple
            ([(m.level_set state lt gt false false false false).ret]
              ++ (if p then [pr] else []) ++ (if c then [cv] else [])
              ++ (if ms then [me] else []) ++ (if cm then [cmv] else []))) := by
  cases p <;> cases c <;> cases ms <;> cases cm
  · exact ⟨fun _ => ⟨isTuple_unwrap _ _ _, rfl⟩, fun h => nomatch h⟩
  all_goals
    refine ⟨fun h => (nomatch h), fun _ => ?_⟩
  all_goals
    exact ⟨(if (m.level_set state lt gt false false false false).levelSets.length = 1
              then PyVal.qArr
                (m.level_set state lt gt false false false false).levelValues.headI
              else PyVal.listOf
                ((m.level_set state lt gt false false false
                    false).levelValues.map PyVal.qArr)),
           PyVal.qArr (m.query (m.toIndex state)).2.1,
           PyVal.qArr (m.query (m.toIndex state)).1,
           PyVal.qArr (m.query (m.toIndex state)).2.2, rfl⟩

/-- Witness for C5: at a concrete instance, the flagless call returns a
non-tuple value, and setting `return_proba` wraps the result into a tuple
headed by the bare level set. -/
theorem edge_C5_return_tuple_policy_witness :
    ((false || false || false || false) = false) ∧
    (mConcrete.level_set StateArg.whole (Thresh.scalar 0)
      (Thresh.scalar (1/2)) false false false false).ret.isTuple = false ∧
    ((true || false || false || false) = true) ∧
    (∃ pr cv me cmv : PyVal,
      (mConcrete.level_set StateArg.whole (Thresh.scalar 0)
        (Thresh.scalar (1/2)) true false false false).ret =
        PyVal.tuple
          ([(mConcrete.level_set StateArg.whole (Thresh.scalar 0)
              (Thresh.scalar (1/2)) false false false false).ret]
            ++ (if true then [pr] else []) ++ (if false then [cv] else [])
            ++ (if false then [me] else [])
            ++ (if false then [cmv] else []))) :=
  ⟨rfl,
   ((edge_C5_return_tuple_policy Unit Unit Unit Unit mConcrete StateArg.whole
      (Thresh.scalar 0) (Thresh.scalar (1/2)) false false false false).1
        rfl).1,
   rfl,
   (edge_C5_return_tuple_policy Unit Unit Unit Unit mConcrete StateArg.whole
      (Thresh.scalar 0) (Thresh.scalar (1/2)) true false false false).2 rfl⟩

/-- C4 (amended): when exactly one threshold pair is requested every
returned component is a bare array (the level set and probability arrays
are unwrapped from their singleton lists); when more than one pair is
requested, the level-set and probability components are lists with one
array per threshold pair, while the covariance, measure and
covariance-matrix components remain single bare arrays, since they do not
depend on the thresholds. -/
theorem edge_C4_singleton_unwrapping (St A SA Ix : Type)
    (m : SafetyMeasure St A SA Ix) (state : StateArg St) (lt gt : Thresh)
    (p c ms cm : Bool) (h : gt.toList.length = lt.toList.length) :
    (lt.toList.length = 1 →
      (m.level_set state lt gt p c ms cm).ret.tupleComponents =
        [PyVal.boolArr (m.level_set state lt gt p c ms cm).levelSets.headI]
        ++ (if p then
            [PyVal.qArr (m.level_set state lt gt p c ms cm).levelValues.headI]
            else [])
        ++ (if c then [PyVal.qArr (m.query (m.toIndex state)).2.1] else [])
        ++ (if ms then [PyVal.qArr (m.query (m.toIndex state)).1] else [])
        ++ (if cm then [PyVal.qArr (m.query (m.toIndex state)).2.2] else []))
    ∧ (1 < lt.toList.length →
      (m.level_set state lt gt p c ms cm).levelSets.length = lt.toList.length
      ∧ (m.level_set state lt gt p c ms cm).levelValues.length =
          lt.toList.length
      ∧ (m.level_set state lt gt p c ms cm).ret.tupleComponents =
        [PyVal.listOf
          ((m.level_set state lt gt p c ms cm).levelSets.map PyVal.boolArr)]
        ++ (if p then
            [PyVal.listOf
              ((m.level_set state lt gt p c ms cm).levelValues.map
                PyVal.qArr)]
            else [])
        ++ (if c then [PyVal.qArr (m.query (m.toIndex state)).2.1] else [])
        ++ (if ms then [PyVal.qArr (m.query (m.toIndex state)).1] else [])
        ++ (if cm then [PyVal.qArr (m.query (m.toIndex state)).2.2] else [])) := by
  have hset : (m.level_set state lt gt p c ms cm).levelSets.length =
      lt.toList.length := by
    rw [level_set_levelSets_length, h, min_self]
  constructor
  · intro h1
    rw [level_set_ret_components m state lt gt p c ms cm, hset, h1]
    simp
  · intro h2
    refine ⟨hset, level_set_levelValues_length m state lt gt p c ms cm, ?_⟩
    rw [level_set_ret_components m state lt gt p c ms cm, hset]
    have hne : lt.toList.length ≠ 1 := by omega
    simp [hne]

/-- Counterexample for C4 as stated: with two threshold pairs and
`return_covar=True`, the covariance component of the returned tuple is a
bare array, not a list of two arrays (only the level-set component is a
list). -/
theorem edge_C4_counterexample :
    1 < (Thresh.list [(0:ℚ), 1]).toList.length
    ∧ ((mConcrete.level_set StateArg.whole (Thresh.list [0, 1])
        (Thresh.list [1/2, 1/2]) false true false
        false).ret.tupleComponents.getD 1 PyVal.pynone).isListOf = false
    ∧ ((mConcrete.level_set StateArg.whole (Thresh.list [0, 1])
        (Thresh.list [1/2, 1/2]) false true false
        false).ret.tupleComponents.getD 0 PyVal.pynone).isListOf = true := by
  refine ⟨by decide, ?_, ?_⟩ <;> rfl

/-- Witness for C4: the amended statement applied at a concrete instance
with two threshold pairs. -/
theorem edge_C4_singleton_unwrapping_witness :
    ((Thresh.list [(1:ℚ)/2, 1/2]).toList.length =
      (Thresh.list [(0:ℚ), 1]).toList.length)
    ∧ 1 < (Thresh.list [(0:ℚ), 1]).toList.length
    ∧ (mConcrete.level_set StateArg.whole (Thresh.list [0, 1])
        (Thresh.list [1/2, 1/2]) false true false false).levelSets.length =
      (Thresh.list [(0:ℚ), 1]).toList.length :=
  ⟨rfl, by decide,
   ((edge_C4_singleton_unwrapping Unit Unit Unit Unit mConcrete
      StateArg.whole (Thresh.list [0, 1]) (Thresh.list [1/2, 1/2])
      false true false false rfl).2 (by decide)).1⟩

/-- Helper: explicit form of the probability arrays computed by
`level_set`: one array per lambda threshold, computed from the same queried
mean and covariance slices, with the absolute-value fallback exactly when a
warning was captured. -/
theorem level_set_levelValues_eq (m : SafetyMeasure St A SA Ix)
    (state : StateArg St) (lt gt : Thresh) (p c ms cm : Bool) :
    (m.level_set state lt gt p c ms cm).levelValues =
      if 0 < (if ((m.query (m.toIndex state)).2.1.any
                fun cc => decide (cc ≤ 0)) then m.npWarnings else []).length
      then
        lt.toList.map (fun l =>
          ((m.query (m.toIndex state)).1.zip
            (m.query (m.toIndex state)).2.1).map (fun pr =>
              m.cdf ((pr.1 - l) / m.sqrt |pr.2|)))
      else
        lt.toList.map (fun l =>
          ((m.query (m.toIndex state)).1.zip
            (m.query (m.toIndex state)).2.1).map (fun pr =>
              m.cdf ((pr.1 - l) / m.sqrt pr.2))) := rfl

/-- Helper: indexing a map over a zip of a mapped list against building the
same value from the indexed elements alone. -/
theorem getD_map_zip_map {α β γ δ : Type} (f : α → β) (G : β × γ → δ)
    (dflt : δ) (da : α) (dc : γ) :
    ∀ (as : List α) (cs : List γ) (i : ℕ), i < as.length → i < cs.length →
    (((as.map f).zip cs).map G).getD i dflt =
      G (f (as.getD i da), cs.getD i dc) := by
  intro as
  induction as with
  | nil => intro cs i ha hc; exact absurd ha (by simp)
  | cons a as ih =>
    intro cs i ha hc
    cases cs with
    | nil => exact absurd hc (by simp)
    | cons c cs =>
      cases i with
      | zero => rfl
      | succ n =>
        have ha' : n < as.length := by simpa using ha
        have hc' : n < cs.length := by simpa using hc
        simpa using ih cs n ha' hc'

/-- Helper: the i-th element of a map over a zip of a mapped list equals
the head of the same construction applied to the singleton lists of the
i-th elements. -/
theorem getD_map_zip_map_headI {α β γ δ : Type} [Inhabited δ] (f : α → β)
    (G : β × γ → δ)
    (dflt : δ) (da : α) (dc : γ) (as : List α) (cs : List γ) (i : ℕ)
    (ha : i < as.length) (hc : i < cs.length) :
    (((as.map f).zip cs).map G).getD i dflt =
      ((([as.getD i da].map f).zip [cs.getD i dc]).map G).headI := by
  rw [getD_map_zip_map f G dflt da dc as cs i ha hc]
  rfl

/-- C3: a `level_set` call with threshold lists of equal length k performs
exactly one regressor inference call, produces k boolean level sets, and
its i-th level set equals the one produced by a separate `level_set` call
with the single i-th threshold pair on the same state and regressor. -/
theorem edge_C3_multi_threshold_equivalence (St A SA Ix : Type)
    (m : SafetyMeasure St A SA Ix) (state : StateArg St) (lam gam : List ℚ)
    (p c ms cm : Bool) (k i : ℕ)
    (hl : lam.length = k) (hg : gam.length = k) (hi : i < k) :
    (m.level_set state (Thresh.list lam) (Thresh.list gam)
        p c ms cm).queryCalls = 1
    ∧ (m.level_set state (Thresh.list lam) (Thresh.list gam)
        p c ms cm).levelSets.length = k
    ∧ (m.level_set state (Thresh.list lam) (Thresh.list gam)
        p c ms cm).levelSets.getD i []
      = (m.level_set state (Thresh.scalar (lam.getD i 0))
          (Thresh.scalar (gam.getD i 0)) p c ms cm).levelSets.headI := by
  subst hl
  have hig : i < gam.length := by omega
  refine ⟨rfl, ?_, ?_⟩
  · rw [level_set_levelSets_length]
    simp [Thresh.toList, hg]
  · rw [level_set_levelSets_eq, level_set_levelSets_eq,
      level_set_levelValues_eq, level_set_levelValues_eq]
    by_cases hw : 0 < (if ((m.query (m.toIndex state)).2.1.any
        fun cc => decide (cc ≤ 0)) then m.npWarnings else []).length
    · simp only [if_pos hw, Thresh.toList]
      exact getD_map_zip_map_headI _ _ _ 0 0 lam gam i hi hig
    · simp only [if_neg hw, Thresh.toList]
      exact getD_map_zip_map_headI _ _ _ 0 0 lam gam i hi hig

/-- Witness for C3: the multi-threshold equivalence applied to a concrete
instance with two threshold pairs, second pair selected. -/
theorem edge_C3_multi_threshold_equivalence_witness :
    ([(0:ℚ), 1].length = 2) ∧ ([(1:ℚ)/2, 1/3].length = 2) ∧ (1 < 2) ∧
    (mConcrete.level_set StateArg.whole (Thresh.list [0, 1])
      (Thresh.list [1/2, 1/3]) false false false false).queryCalls = 1 :=
  ⟨rfl, rfl, by decide,
   (edge_C3_multi_threshold_equivalence Unit Unit Unit Unit mConcrete
      StateArg.whole [0, 1] [1/2, 1/3] false false false false 2 1
      rfl rfl (by decide)).1⟩

set_option maxRecDepth 8192 in
/-- C6, evaluated at a failing input: with a negative covariance entry the
call does not abort; the probabilities are recomputed with
`sqrt(abs(covariance))` (here `cdf((2 - 0)/sqrt(abs(-1))) = 2`, not the
non-fallback `-2`), the level set is computed from the fallback
probability, and exactly one consolidated warning is emitted for the whole
call, also with two threshold pairs. However, because the code strips two
characters from the concatenation of the captured warning messages although
the separator it appended is the single character `\n`
(`original_warning[:-2]`), the emitted message contains the original
warning text truncated by its final character (`...in sqr`), so the
original text `invalid value encountered in sqrt` does not occur in it
verbatim, contradicting the claim. -/
theorem edge_C6_warning_fallback_truncation :
    ((mWarn.query (mWarn.toIndex StateArg.whole)).2.1.any
      fun cc => decide (cc < 0)) = true
    ∧ (mWarn.level_set StateArg.whole (Thresh.scalar 0) (Thresh.scalar (1/2))
        true false false false).levelValues = [[2]]
    ∧ (mWarn.level_set StateArg.whole (Thresh.scalar 0) (Thresh.scalar (1/2))
        true false false false).levelSets = [[true]]
    ∧ (mWarn.level_set StateArg.whole (Thresh.scalar 0) (Thresh.scalar (1/2))
        true false false false).emittedWarnings =
        ["Warning encountered in cumulative density function computation. \nThis may be caused by an ill-conditioned kernel matrix causing a negative covariance.\nOriginal warning: invalid value encountered in sqr"]
    ∧ (mWarn.level_set StateArg.whole (Thresh.list [0, 1])
        (Thresh.list [1/2, 1/2]) false false false
        false).emittedWarnings.length = 1
    ∧ (mWarn.level_set StateArg.whole (Thresh.scalar 0)
        (Thresh.scalar (1/2)) true false false
        false).emittedWarnings.headI ++ "t" =
        "Warning encountered in cumulative density function computation. \nThis may be caused by an ill-conditioned kernel matrix causing a negative covariance.\nOriginal warning: invalid value encountered in sqrt"
    ∧ (mWarn.level_set StateArg.whole (Thresh.scalar 0)
        (Thresh.scalar (1/2)) true false false
        false).emittedWarnings.headI ≠
        "Warning encountered in cumulative density function computation. \nThis may be caused by an ill-conditioned kernel matrix causing a negative covariance.\nOriginal warning: invalid value encountered in sqrt" := by
  refine ⟨rfl, by decide, by decide, ?_, rfl, ?_, ?_⟩ <;> decide

/-- C8: `is_in_level_set` returns whether the normal CDF of
`(mean - lambda_threshold) / sqrt(covariance)` at the queried single
state-action pair exceeds `gamma_threshold`. Consequently, whenever the
external `norm.cdf` tends to 1 at plus infinity and to 0 at minus infinity
and the external `np.sqrt` is positive on positives and vanishes at zero
from the right, then for every state-action pair whose regressor output has
positive variance close enough to zero the call returns `true` for any
`gamma_threshold < 1` when the mean is above `lambda_threshold`, and
`false` for any `gamma_threshold > 0` when the mean is below it. -/
theorem edge_C8_is_in_level_set (cdf sq : ℚ → ℚ)
    (hcdf_hi : ∀ g : ℚ, g < 1 → ∃ B : ℚ, ∀ x : ℚ, B < x → g < cdf x)
    (hcdf_lo : ∀ g : ℚ, 0 < g → ∃ B : ℚ, ∀ x : ℚ, x < B → cdf x < g)
    (hsq_pos : ∀ v : ℚ, 0 < v → 0 < sq v)
    (hsq_small : ∀ d : ℚ, 0 < d → ∃ e : ℚ, 0 < e ∧
      ∀ v : ℚ, 0 < v → v < e → sq v < d) :
    (∀ (St A SA Ix : Type) (m : SafetyMeasure St A SA Ix) (s : St) (a : A)
      (l g : ℚ),
      m.is_in_level_set s a l g =
        decide (g < m.cdf (((m.queryPoint s a).1 - l) /
          m.sqrt (m.queryPoint s a).2)))
    ∧ (∀ l g mean : ℚ, g < 1 → l < mean → ∃ e : ℚ, 0 < e ∧
      ∀ (St A SA Ix : Type) (m : SafetyMeasure St A SA Ix) (s : St) (a : A),
        m.cdf = cdf → m.sqrt = sq → (m.queryPoint s a).1 = mean →
        0 < (m.queryPoint s a).2 → (m.queryPoint s a).2 < e →
        m.is_in_level_set s a l g = true)
    ∧ (∀ l g mean : ℚ, 0 < g → mean < l → ∃ e : ℚ, 0 < e ∧
      ∀ (St A SA Ix : Type) (m : SafetyMeasure St A SA Ix) (s : St) (a : A),
        m.cdf = cdf → m.sqrt = sq → (m.queryPoint s a).1 = mean →
        0 < (m.queryPoint s a).2 → (m.queryPoint s a).2 < e →
        m.is_in_level_set s a l g = false) := by
  refine ⟨fun St A SA Ix m s a l g => rfl, ?_, ?_⟩
  · intro l g mean hg hlm
    obtain ⟨B, hB⟩ := hcdf_hi g hg
    have hml : 0 < mean - l := by linarith
    set Bp : ℚ := max B 0 + 1 with hBpdef
    have hBppos : 0 < Bp := by
      have h0 : (0:ℚ) ≤ max B 0 := le_max_right B 0
      rw [hBpdef]; linarith
    have hBBp : B < Bp := by
      have h0 : B ≤ max B 0 := le_max_left B 0
      rw [hBpdef]; linarith
    have hdpos : 0 < (mean - l) / Bp := div_pos hml hBppos
    obtain ⟨e, hepos, he⟩ := hsq_small ((mean - l) / Bp) hdpos
    refine ⟨e, hepos, ?_⟩
    intro St A SA Ix m s a hc hs hm hv hve
    have hsqv : 0 < m.sqrt (m.queryPoint s a).2 := by
      rw [hs]; exact hsq_pos _ hv
    have hsmall : m.sqrt (m.queryPoint s a).2 < (mean - l) / Bp := by
      rw [hs]; exact he _ hv hve
    have h1 : m.sqrt (m.queryPoint s a).2 * Bp < mean - l :=
      (lt_div_iff₀ hBppos).mp hsmall
    have h2 : Bp < (mean - l) / m.sqrt (m.queryPoint s a).2 := by
      rw [lt_div_iff₀ hsqv, mul_comm]
      exact h1
    have hcdfx : g < m.cdf (((m.queryPoint s a).1 - l) /
        m.sqrt (m.queryPoint s a).2) := by
      rw [hc, hm]
      exact hB _ (lt_trans hBBp h2)
    simp only [SafetyMeasure.is_in_level_set]
    exact decide_eq_true hcdfx
  · intro l g mean hg hml
    obtain ⟨B, hB⟩ := hcdf_lo g hg
    have hlm : mean - l < 0 := by linarith
    set Bm : ℚ := min B 0 - 1 with hBmdef
    have hBneg : Bm < 0 := by
      have h0 : min B 0 ≤ 0 := min_le_right B 0
      rw [hBmdef]; linarith
    have hBB : Bm < B := by
      have h0 : min B 0 ≤ B := min_le_left B 0
      rw [hBmdef]; linarith
    have hdpos : 0 < (mean - l) / Bm := div_pos_of_neg_of_neg hlm hBneg
    obtain ⟨e, hepos, he⟩ := hsq_small ((mean - l) / Bm) hdpos
    refine ⟨e, hepos, ?_⟩
    intro St A SA Ix m s a hc hs hm hv hve
    have hsqv : 0 < m.sqrt (m.queryPoint s a).2 := by
      rw [hs]; exact hsq_pos _ hv
    have hsmall : m.sqrt (m.queryPoint s a).2 < (mean - l) / Bm := by
      rw [hs]; exact he _ hv hve
    have h1 : mean - l < m.sqrt (m.queryPoint s a).2 * Bm :=
      (lt_div_iff_of_neg hBneg).mp hsmall
    have h2 : ((m.queryPoint s a).1 - l) / m.sqrt (m.queryPoint s a).2 <
        Bm := by
      rw [hm, div_lt_iff₀ hsqv, mul_comm]
      exact h1
    have hcdfx : m.cdf (((m.queryPoint s a).1 - l) /
        m.sqrt (m.queryPoint s a).2) < g := by
      rw [hc]
      exact hB _ (lt_trans h2 hBB)
    simp only [SafetyMeasure.is_in_level_set]
    exact decide_eq_false (not_lt.mpr (le_of_lt hcdfx))

/-- Witness for C8: the identity function satisfies the required limit
behaviour of the external `norm.cdf` and `np.sqrt` stand-ins, and the
theorem evaluates `is_in_level_set` at a concrete model instance. -/
theorem edge_C8_is_in_level_set_witness :
    (∀ g : ℚ, g < 1 → ∃ B : ℚ, ∀ x : ℚ, B < x → g < (fun y : ℚ => y) x)
    ∧ (∀ g : ℚ, 0 < g → ∃ B : ℚ, ∀ x : ℚ, x < B → (fun y : ℚ => y) x < g)
    ∧ (∀ v : ℚ, 0 < v → 0 < (fun y : ℚ => y) v)
    ∧ (∀ d : ℚ, 0 < d → ∃ e : ℚ, 0 < e ∧
        ∀ v : ℚ, 0 < v → v < e → (fun y : ℚ => y) v < d)
    ∧ mConcrete.is_in_level_set () () 0 (1/2) =
        decide ((1:ℚ)/2 < mConcrete.cdf (((mConcrete.queryPoint () ()).1 - 0) /
          mConcrete.sqrt (mConcrete.queryPoint () ()).2)) :=
  ⟨fun g _ => ⟨g, fun _ hx => hx⟩,
   fun g _ => ⟨g, fun _ hx => hx⟩,
   fun _ hv => hv,
   fun d hd => ⟨d, hd, fun _ _ hv => hv⟩,
   (edge_C8_is_in_level_set (fun y => y) (fun y => y)
      (fun g _ => ⟨g, fun _ hx => hx⟩) (fun g _ => ⟨g, fun _ hx => hx⟩)
      (fun _ hv => hv) (fun d hd => ⟨d, hd, fun _ _ hv => hv⟩)).1
      Unit Unit Unit Unit mConcrete () () 0 (1/2)⟩
